import Mathlib

/-!
# Verification of the URL-shortener microservice

Shallow embedding of the repository's two source files:

* `src/main.py` — FastAPI URL shortener: `generate_unique_shortcode`,
  `create_short_url`, `redirect_to_long_url`, backed by the in-process
  dictionary `url_db` mapping shortcodes to `{long_url, expiry_utc}`.
* `src/logger.py` — logging client: `get_auth_token` (lazily cached bearer
  token guarded by a lock) and `Log` (best-effort POST of a structured event).

Modelling conventions:
* Wall-clock time (`datetime.now(timezone.utc)`) is modelled as `Nat`
  microseconds since the epoch, the precision of a Python `datetime`.
  `timedelta(minutes=v)` is `v * microsPerMinute`.  The response field
  produced by `strftime('%Y-%m-%dT%H:%M:%SZ')` renders the expiry truncated
  to whole seconds; since that calendar rendering is injective on whole
  seconds, we model the instant the string denotes: `expiry / microsPerSecond`.
* The Python dict `url_db` is modelled as an association list `Store` with
  the dict operations `dictGet`, `dictInsert` (assignment), `dictDelete`
  (`del`).  A Python dict always has unique keys (`KeysNodup`).
* The nondeterminism of `secrets.choice` is modelled by an explicit stream of
  draws: each loop iteration of `generate_unique_shortcode` consumes one draw
  `Nat → Fin 62` (the indices of the `config.SHORTCODE_LENGTH` choices from
  `string.ascii_letters + string.digits`).  The unbounded `while True` loop
  is modelled on a finite list of draws, returning `none` when the supplied
  draws are exhausted (the loop in the source never returns without finding
  a collision-free code).
* Configuration (`config.py` is external to the repository core) is threaded
  as explicit parameters: `base` (`BASE_SHORT_URL`), `L` (`SHORTCODE_LENGTH`),
  `defaultValidity` (`DEFAULT_VALIDITY_MINUTES`).
* Network I/O of the logger is modelled by oracle values (`AuthWire`,
  `LogWire`) describing what the remote endpoint did on that call, down to
  whether the auth response body was a JSON object: a non-dict JSON body
  makes `token_data.get("access_token")` raise an uncaught `AttributeError`,
  which the embedding propagates (`AuthResult.raised`, `LogResult.raised`).
-/

namespace UrlShortener

/-- One value of `url_db`: the Python dict
`{"long_url": str(request_data.url), "expiry_utc": expiry_datetime_utc}`. -/
structure Entry where
  long_url : String
  expiry_utc : Nat
deriving Repr, DecidableEq

/-- The in-memory store `url_db`, a Python dict from shortcode to entry. -/
abbrev Store := List (String × Entry)

/-- `url_db.get(k)` / `k in url_db`: first binding of `k`, if any. -/
def dictGet (db : Store) (k : String) : Option Entry :=
  match db with
  | [] => none
  | (k', v) :: rest => if k' = k then some v else dictGet rest k

/-- `url_db[k] = v`: overwrite the binding of `k` in place, else append. -/
def dictInsert (db : Store) (k : String) (v : Entry) : Store :=
  match db with
  | [] => [(k, v)]
  | (k', v') :: rest =>
      if k' = k then (k, v) :: rest else (k', v') :: dictInsert rest k v

/-- `del url_db[k]`: remove the binding of `k`. -/
def dictDelete (db : Store) (k : String) : Store :=
  match db with
  | [] => []
  | (k', v') :: rest => if k' = k then rest else (k', v') :: dictDelete rest k

/-- Invariant of every Python dict: keys are pairwise distinct. -/
def KeysNodup (db : Store) : Prop := (db.map Prod.fst).Nodup

/-- Microseconds per minute: `timedelta(minutes=1)` at `datetime` precision. -/
def microsPerMinute : Nat := 60000000

/-- Microseconds per second. -/
def microsPerSecond : Nat := 1000000

/-- `string.ascii_letters + string.digits`, the alphabet of
`secrets.choice(chars)` in `generate_unique_shortcode`. -/
def shortcodeChars : List Char :=
  "abcdefghijklmnopqrstuvwxyzABCDEFGHIJKLMNOPQRSTUVWXYZ0123456789".toList

theorem shortcodeChars_length : shortcodeChars.length = 62 := by decide

/-- The character chosen by `secrets.choice(chars)` for draw index `i`. -/
def codeChar (i : Fin 62) : Char :=
  shortcodeChars.get (Fin.cast shortcodeChars_length.symm i)

/-- One candidate of the loop body:
`''.join(secrets.choice(chars) for _ in range(config.SHORTCODE_LENGTH))`,
built from the draw `d` giving the `L` successive choices. -/
def mkCandidate (L : Nat) (d : Nat → Fin 62) : String :=
  String.mk ((List.range L).map fun i => codeChar (d i))

/-- `generate_unique_shortcode` (src/main.py lines 41–49): loop drawing random
candidates until one is not in `url_db`.  `none` models exhausting the
supplied draws without finding a free code (the source loops forever). -/
def generate_unique_shortcode (L : Nat) (db : Store) :
    List (Nat → Fin 62) → Option String
  | [] => none
  | d :: ds =>
      let shortcode := mkCandidate L d
      if (dictGet db shortcode).isSome then
        generate_unique_shortcode L db ds
      else
        some shortcode

/-- The body of `POST /shorturls` after pydantic validation.  `validity` is
`none` when the field was omitted (pydantic then applies the configured
default) and `shortcode` is `none` when absent. -/
structure CreateRequest where
  url : String
  validity : Option Nat
  shortcode : Option String
deriving Repr, DecidableEq

/-- `URLShortenResponse`.  `expirySeconds` is the instant denoted by the
`strftime('%Y-%m-%dT%H:%M:%SZ')` string: the expiry in whole seconds. -/
structure CreateResponse where
  shortlink : String
  expirySeconds : Nat
deriving Repr, DecidableEq

/-- Result of a successful `create_short_url` call: the HTTP status set by
the route decorator (`status.HTTP_201_CREATED`), the response body, and the
updated `url_db`. -/
structure CreateResult where
  status : Nat
  response : CreateResponse
  store : Store
deriving Repr, DecidableEq

/-- The shortcode-selection prefix of `create_short_url` (lines 64–73):
keep a truthy custom shortcode unless it is already in `url_db`; otherwise
generate a fresh one.  (`if shortcode:` is Python truthiness, so an empty
string also falls through to generation.) -/
def chooseShortcode (L : Nat) (db : Store) (draws : List (Nat → Fin 62)) :
    Option String → Option String
  | none => generate_unique_shortcode L db draws
  | some sc =>
      if sc = "" then generate_unique_shortcode L db draws
      else if (dictGet db sc).isSome then generate_unique_shortcode L db draws
      else some sc

/-- `create_short_url` (src/main.py lines 58–87): choose the shortcode,
compute `expiry = now + timedelta(minutes=validity)`, store the mapping and
return the composed shortlink plus rendered expiry with HTTP 201.
`none` only when the generation loop found no free code among the draws. -/
def create_short_url (base : String) (L : Nat) (defaultValidity : Nat)
    (db : Store) (now : Nat) (draws : List (Nat → Fin 62))
    (req : CreateRequest) : Option CreateResult :=
  match chooseShortcode L db draws req.shortcode with
  | none => none
  | some shortcode =>
      let validity := req.validity.getD defaultValidity
      let expiry := now + validity * microsPerMinute
      some
        { status := 201
          response :=
            { shortlink := base ++ "/" ++ shortcode
              expirySeconds := expiry / microsPerSecond }
          store := dictInsert db shortcode ⟨req.url, expiry⟩ }

/-- Outcome of `GET /{shortcode}`: a `RedirectResponse` (FastAPI default
status 307, a 302-class redirect) or a raised `HTTPException`. -/
inductive RedirectOutcome where
  | redirect (location : String)
  | httpError (status : Nat) (detail : String)
deriving Repr, DecidableEq

/-- `redirect_to_long_url` (src/main.py lines 89–110): look up the shortcode;
404 if absent; if `datetime.now(timezone.utc) > expiry_utc` evict the entry
and raise 410; otherwise redirect to the stored long URL. -/
def redirect_to_long_url (db : Store) (now : Nat) (shortcode : String) :
    RedirectOutcome × Store :=
  match dictGet db shortcode with
  | none => (.httpError 404 "Short URL not found.", db)
  | some url_data =>
      if url_data.expiry_utc < now then
        (.httpError 410 "This Short URL has expired.", dictDelete db shortcode)
      else
        (.redirect url_data.long_url, db)

/-- The pydantic `URLShortenRequest` constraint on a supplied shortcode:
`min_length=4`, `max_length=12`, pattern `^[a-zA-Z0-9_\-]+$`. -/
def validShortcodeField (sc : String) : Bool :=
  4 ≤ sc.length && sc.length ≤ 12 &&
    sc.toList.all fun c => c.isAlpha || c.isDigit || c = '_' || c = '-'

/-- Abstraction of pydantic's `HttpUrl` validation: the destination parses as
an absolute http(s) URL.  (Only used as a hypothesis; no claim depends on the
exact validation rules.) -/
def validHttpUrl (s : String) : Bool :=
  s.toList.take 7 = "http://".toList || s.toList.take 8 = "https://".toList

/-- A create request that passes pydantic validation (a request failing this
is rejected with a 4xx before `create_short_url` runs): valid URL, positive
validity when supplied (`gt=0`), pattern-constrained shortcode when
supplied. -/
def validRequest (req : CreateRequest) : Bool :=
  validHttpUrl req.url &&
    (match req.validity with
     | none => true
     | some v => decide (0 < v)) &&
    (match req.shortcode with
     | none => true
     | some sc => validShortcodeField sc)

/-! ## Logger (src/logger.py) -/

/-- The two kinds of Python exception the token-fetch can terminate with:
`requestError` is any `requests.exceptions.RequestException` (the class the
`except` clause catches); `attributeError` is the `AttributeError` raised by
`token_data.get("access_token")` when `token_data` is not a dict, which no
clause catches. -/
inductive PyError where
  | requestError
  | attributeError
deriving Repr, DecidableEq

/-- What `response.json()` yields on the auth response:

* `notJson` — the body is not valid JSON: `json()` raises a
  `JSONDecodeError`, a subclass of `RequestException`;
* `jsonNonDict` — valid JSON that is not an object (e.g. a list, a string,
  `null`): `json()` returns it, and the subsequent
  `token_data.get("access_token")` raises an uncaught `AttributeError`;
* `jsonDict tokOpt` — a JSON object; `tokOpt` is its `access_token` field,
  `none` when the field is absent or falsy-null. -/
inductive AuthBody where
  | notJson
  | jsonNonDict
  | jsonDict (accessToken : Option String)
deriving Repr, DecidableEq

/-- What the auth endpoint did on one `requests.post(config.AUTH_ENDPOINT, …)`
call: either the post raised a `RequestException` (`transportError`), or an
HTTP response arrived with the given status code and body. -/
inductive AuthWire where
  | transportError
  | response (status : Nat) (body : AuthBody)
deriving Repr, DecidableEq

/-- How one `get_auth_token` call terminates: a normal return of the value
`tok` (`None` or a token string), or a Python exception propagating out. -/
inductive AuthResult where
  | value (tok : Option String)
  | raised (e : PyError)
deriving Repr, DecidableEq

/-- Result of one `get_auth_token` call: how it terminated, the new value of
the global `auth_token_storage` (modelled as the cached token, `none` when no
dict is stored), and whether the call contacted the auth endpoint. -/
structure AuthCall where
  result : AuthResult
  newState : Option String
  contacted : Bool
deriving Repr, DecidableEq

/-- The `try` block of `get_auth_token` (src/logger.py lines 42–59): post,
`raise_for_status` (which raises `HTTPError` exactly for statuses 400–599),
`json()`, read `access_token`.  `Except.error e` is a raised exception `e`;
`Except.ok (result, cache)` is a normal return with the value returned and
the value cached. -/
def auth_attempt (w : AuthWire) : Except PyError (Option String × Option String) :=
  match w with
  | .transportError => .error .requestError
  | .response status body =>
      if 400 ≤ status ∧ status < 600 then .error .requestError
      else
        match body with
        | .notJson => .error .requestError
        | .jsonNonDict => .error .attributeError
        | .jsonDict tokOpt =>
            match tokOpt with
            | none => .ok (none, none)
            | some tok =>
                if tok = "" then .ok (none, none) else .ok (some tok, some tok)

/-- `get_auth_token` (src/logger.py lines 22–59).  Under the lock: if
`auth_token_storage` is truthy (a cached `{'token': …}` dict is non-empty),
return the cached token without any network call; otherwise attempt to fetch
a token.  The `except` clause catches only `RequestException` (printing and
returning `None`, caching nothing); an `AttributeError` from reading a field
of a non-dict JSON body propagates to the caller, with nothing cached. -/
def get_auth_token (st : Option String) (w : AuthWire) : AuthCall :=
  match st with
  | some tok => ⟨.value (some tok), some tok, false⟩
  | none =>
      match auth_attempt w with
      | .error .requestError => ⟨.value none, none, true⟩
      | .error .attributeError => ⟨.raised .attributeError, none, true⟩
      | .ok (res, cache) => ⟨.value res, cache, true⟩

/-- What the log endpoint did on one
`requests.post(config.LOG_ENDPOINT, …)` call: a raised
`RequestException` or a response with status code and text. -/
inductive LogWire where
  | transportError
  | response (status : Nat) (text : String)
deriving Repr, DecidableEq

/-- Observable outcome of one `Log` call; each failure constructor
corresponds exactly to one local `print` in the source. -/
inductive LogOutcome where
  | failedNoToken
  | submitted
  | submitWarning (status : Nat) (text : String)
  | submitError
deriving Repr, DecidableEq

/-- The `try` block of `Log` (src/logger.py lines 82–88): post the event;
`Except.error ()` is a raised `RequestException`; otherwise warn on a
non-200 status and succeed silently on 200. -/
def log_attempt (lw : LogWire) : Except Unit LogOutcome :=
  match lw with
  | .transportError => .error ()
  | .response status text =>
      .ok (if status ≠ 200 then .submitWarning status text else .submitted)

/-- How one `Log` call terminates: a normal return with an observable
console outcome, or a Python exception propagating to the caller.  Either
way the resulting token-cache state is recorded. -/
inductive LogResult where
  | returned (outcome : LogOutcome) (newState : Option String)
  | raised (e : PyError) (newState : Option String)
deriving Repr, DecidableEq

/-- `Log` (src/logger.py lines 61–88): fetch-or-reuse the token; without a
token print `LOG FAILED` and return; with one, post the event, catching
every `RequestException` of the post.  An exception escaping
`get_auth_token` (the uncaught `AttributeError`) is not handled here either
and propagates to the caller of `Log`. -/
def Log (st : Option String) (aw : AuthWire) (lw : LogWire) : LogResult :=
  let call := get_auth_token st aw
  match call.result with
  | .raised e => .raised e call.newState
  | .value none => .returned .failedNoToken call.newState
  | .value (some _) =>
      match log_attempt lw with
      | .error _ => .returned .submitError call.newState
      | .ok o => .returned o call.newState

/-- A sequence of `get_auth_token` calls threading the cached-token state,
one oracle value per call. -/
def runAuth : Option String → List AuthWire → List AuthCall
  | _, [] => []
  | st, w :: ws =>
      let c := get_auth_token st w
      c :: runAuth c.newState ws

/-! ## Dictionary lemmas -/

theorem dictGet_dictInsert_self (db : Store) (k : String) (v : Entry) :
    dictGet (dictInsert db k v) k = some v := by
  induction db with
  | nil => simp [dictInsert, dictGet]
  | cons p rest ih =>
      obtain ⟨k', v'⟩ := p
      by_cases h : k' = k
      · simp [dictInsert, dictGet, h]
      · simp [dictInsert, dictGet, h, ih]

theorem dictGet_dictInsert_ne (db : Store) (k k' : String) (v : Entry)
    (h : k' ≠ k) : dictGet (dictInsert db k v) k' = dictGet db k' := by
  induction db with
  | nil => simp [dictInsert, dictGet, Ne.symm h]
  | cons p rest ih =>
      obtain ⟨k₀, v₀⟩ := p
      by_cases h0 : k₀ = k
      · subst h0
        simp [dictInsert, dictGet, Ne.symm h]
      · by_cases h1 : k₀ = k'
        · simp [dictInsert, dictGet, h0, h1, h]
        · simp [dictInsert, dictGet, h0, h1, ih]

theorem dictGet_eq_none_of_not_mem_keys (db : Store) (k : String)
    (h : k ∉ db.map Prod.fst) : dictGet db k = none := by
  induction db with
  | nil => simp [dictGet]
  | cons p rest ih =>
      obtain ⟨k', v'⟩ := p
      simp only [List.map_cons, List.mem_cons, not_or] at h
      simp [dictGet, Ne.symm h.1, ih h.2]

theorem dictGet_dictDelete_self (db : Store) (k : String)
    (h : KeysNodup db) : dictGet (dictDelete db k) k = none := by
  induction db with
  | nil => simp [dictDelete, dictGet]
  | cons p rest ih =>
      obtain ⟨k', v'⟩ := p
      simp only [KeysNodup, List.map_cons, List.nodup_cons] at h
      by_cases h0 : k' = k
      · subst h0
        simpa [dictDelete] using dictGet_eq_none_of_not_mem_keys rest k' h.1
      · simp [dictDelete, dictGet, h0, ih h.2]

theorem dictGet_dictDelete_ne (db : Store) (k k' : String) (h : k' ≠ k) :
    dictGet (dictDelete db k) k' = dictGet db k' := by
  induction db with
  | nil => simp [dictDelete]
  | cons p rest ih =>
      obtain ⟨k₀, v₀⟩ := p
      by_cases h0 : k₀ = k
      · subst h0
        simp [dictDelete, dictGet, Ne.symm h]
      · simp [dictDelete, dictGet, h0, ih]

/-! ## Generator lemmas -/

theorem codeChar_alnum :
    ∀ i : Fin 62, ((codeChar i).isAlpha || (codeChar i).isDigit) = true := by
  decide

theorem mkCandidate_length (L : Nat) (d : Nat → Fin 62) :
    (mkCandidate L d).length = L := by
  simp [mkCandidate, String.length]

theorem mkCandidate_alnum (L : Nat) (d : Nat → Fin 62) :
    ∀ ch ∈ (mkCandidate L d).toList, (ch.isAlpha || ch.isDigit) = true := by
  intro ch hch
  simp only [mkCandidate, String.toList, String.mk, List.mem_map] at hch
  obtain ⟨i, _, rfl⟩ := hch
  exact codeChar_alnum (d i)

theorem generate_unique_shortcode_spec (L : Nat) (db : Store)
    (draws : List (Nat → Fin 62)) (c : String)
    (h : generate_unique_shortcode L db draws = some c) :
    c.length = L ∧ (∀ ch ∈ c.toList, (ch.isAlpha || ch.isDigit) = true) ∧
      dictGet db c = none := by
  induction draws with
  | nil => simp [generate_unique_shortcode] at h
  | cons d ds ih =>
      by_cases hmem : (dictGet db (mkCandidate L d)).isSome
      · exact ih (by simpa [generate_unique_shortcode, hmem] using h)
      · have hc : c = mkCandidate L d := by
          simpa [generate_unique_shortcode, hmem] using h.symm
        subst hc
        exact ⟨mkCandidate_length L d, mkCandidate_alnum L d,
          Option.not_isSome_iff_eq_none.mp hmem⟩

theorem chooseShortcode_fresh (L : Nat) (db : Store)
    (draws : List (Nat → Fin 62)) (scOpt : Option String) (sc : String)
    (h : chooseShortcode L db draws scOpt = some sc) :
    dictGet db sc = none := by
  match scOpt with
  | none => exact (generate_unique_shortcode_spec L db draws sc h).2.2
  | some sc₀ =>
      by_cases h0 : sc₀ = ""
      · exact (generate_unique_shortcode_spec L db draws sc
          (by simpa [chooseShortcode, h0] using h)).2.2
      · by_cases h1 : (dictGet db sc₀).isSome
        · exact (generate_unique_shortcode_spec L db draws sc
            (by simpa [chooseShortcode, h0, h1] using h)).2.2
        · have hsc : sc = sc₀ := by
            simpa [chooseShortcode, h0, h1] using h.symm
          subst hsc
          exact Option.not_isSome_iff_eq_none.mp h1

/-- Closed form of a successful `create_short_url` call, given the chosen
shortcode. -/
theorem create_short_url_eq (base : String) (L defaultValidity : Nat)
    (db : Store) (now : Nat) (draws : List (Nat → Fin 62))
    (req : CreateRequest) (sc : String)
    (hsc : chooseShortcode L db draws req.shortcode = some sc) :
    create_short_url base L defaultValidity db now draws req =
      some { status := 201
             response := { shortlink := base ++ "/" ++ sc
                           expirySeconds :=
                             (now + req.validity.getD defaultValidity *
                               microsPerMinute) / microsPerSecond }
             store := dictInsert db sc
               ⟨req.url,
                 now + req.validity.getD defaultValidity * microsPerMinute⟩ } := by
  simp [create_short_url, hsc]

/-! ## Claim theorems -/

/-- C4: for every shortcode not present in the store, the redirect handler
fails with status 404, unconditionally (at any time, leaving the store
unchanged). -/
theorem C4_unknown_shortcode_404 (db : Store) (now : Nat) (sc : String)
    (h : dictGet db sc = none) :
    redirect_to_long_url db now sc =
      (.httpError 404 "Short URL not found.", db) := by
  simp [redirect_to_long_url, h]

theorem C4_unknown_shortcode_404_witness :
    dictGet [] "abcd" = none ∧
      redirect_to_long_url [] 5 "abcd" =
        (.httpError 404 "Short URL not found.", []) :=
  ⟨rfl, C4_unknown_shortcode_404 [] 5 "abcd" rfl⟩

/-- C10: an entry accessed at a wall-clock time exactly equal to its expiry
timestamp still redirects to the destination URL (the comparison
`now > expiry_utc` is strict), so the link is valid through the expiry
instant inclusive. -/
theorem C10_valid_at_expiry_instant (db : Store) (now : Nat) (sc : String)
    (e : Entry) (h : dictGet db sc = some e) (hnow : now = e.expiry_utc) :
    redirect_to_long_url db now sc = (.redirect e.long_url, db) := by
  subst hnow
  simp [redirect_to_long_url, h]

theorem C10_valid_at_expiry_instant_witness :
    dictGet [("abcd", ⟨"https://example.com/page", 100⟩)] "abcd" =
        some ⟨"https://example.com/page", 100⟩ ∧
      redirect_to_long_url [("abcd", ⟨"https://example.com/page", 100⟩)] 100
          "abcd" =
        (.redirect "https://example.com/page",
          [("abcd", ⟨"https://example.com/page", 100⟩)]) :=
  ⟨rfl, C10_valid_at_expiry_instant
    [("abcd", ⟨"https://example.com/page", 100⟩)] 100 "abcd"
    ⟨"https://example.com/page", 100⟩ rfl rfl⟩

/-- C2: a stored shortcode whose expiry has elapsed yields 410 on the first
access after elapse, evicting the entry, and any subsequent access (at any
time, with no intervening operations) yields 404. -/
theorem C2_expired_410_then_404 (db : Store) (now now' : Nat) (sc : String)
    (e : Entry) (hnd : KeysNodup db) (h : dictGet db sc = some e)
    (hexp : e.expiry_utc < now) :
    redirect_to_long_url db now sc =
      (.httpError 410 "This Short URL has expired.", dictDelete db sc) ∧
    redirect_to_long_url (dictDelete db sc) now' sc =
      (.httpError 404 "Short URL not found.", dictDelete db sc) := by
  refine ⟨by simp [redirect_to_long_url, h, hexp], ?_⟩
  simp [redirect_to_long_url, dictGet_dictDelete_self db sc hnd]

theorem C2_expired_410_then_404_witness :
    KeysNodup [("abcd", ⟨"https://example.com/page", 100⟩)] ∧
    dictGet [("abcd", ⟨"https://example.com/page", 100⟩)] "abcd" =
      some ⟨"https://example.com/page", 100⟩ ∧
    (100 : Nat) < 101 ∧
    redirect_to_long_url [("abcd", ⟨"https://example.com/page", 100⟩)] 101
        "abcd" =
      (.httpError 410 "This Short URL has expired.",
        dictDelete [("abcd", ⟨"https://example.com/page", 100⟩)] "abcd") ∧
    redirect_to_long_url
        (dictDelete [("abcd", ⟨"https://example.com/page", 100⟩)] "abcd") 200
        "abcd" =
      (.httpError 404 "Short URL not found.",
        dictDelete [("abcd", ⟨"https://example.com/page", 100⟩)] "abcd") := by
  have h := C2_expired_410_then_404
    [("abcd", ⟨"https://example.com/page", 100⟩)] 101 200 "abcd"
    ⟨"https://example.com/page", 100⟩ (by simp [KeysNodup]) rfl (by decide)
  exact ⟨by simp [KeysNodup], rfl, by decide, h.1, h.2⟩

/-- C5: every shortcode produced by `generate_unique_shortcode` has exactly
the configured fixed length, consists only of ASCII letters and digits, and
is absent from the store at the instant of generation. -/
theorem C5_generated_shortcode_shape (L : Nat) (db : Store)
    (draws : List (Nat → Fin 62)) (c : String)
    (h : generate_unique_shortcode L db draws = some c) :
    c.length = L ∧ (∀ ch ∈ c.toList, (ch.isAlpha || ch.isDigit) = true) ∧
      dictGet db c = none :=
  generate_unique_shortcode_spec L db draws c h

theorem C5_generated_shortcode_shape_witness :
    generate_unique_shortcode 2 [] [fun _ => (0 : Fin 62)] = some "aa" ∧
      ("aa".length = 2 ∧
        (∀ ch ∈ "aa".toList, (ch.isAlpha || ch.isDigit) = true) ∧
        dictGet [] "aa" = none) :=
  ⟨rfl, C5_generated_shortcode_shape 2 [] [fun _ => (0 : Fin 62)] "aa" rfl⟩

/-- C1: for every valid create request, the shortcode contained in the
returned shortlink, when looked up by the redirect handler before expiry with
no intervening operations, resolves to a redirect whose target equals the
original destination URL of the request. -/
theorem C1_create_then_redirect (base : String) (L defaultValidity : Nat)
    (db : Store) (now : Nat) (draws : List (Nat → Fin 62))
    (req : CreateRequest) (sc : String) (r : CreateResult) (now' : Nat)
    (hvalid : validRequest req = true)
    (hsc : chooseShortcode L db draws req.shortcode = some sc)
    (hcreate : create_short_url base L defaultValidity db now draws req = some r)
    (hnow' : now' ≤ now + req.validity.getD defaultValidity * microsPerMinute) :
    r.response.shortlink = base ++ "/" ++ sc ∧
    redirect_to_long_url r.store now' sc = (.redirect req.url, r.store) := by
  have hr : r =
      ⟨201,
        ⟨base ++ "/" ++ sc,
          (now + req.validity.getD defaultValidity * microsPerMinute) /
            microsPerSecond⟩,
        dictInsert db sc
          ⟨req.url, now + req.validity.getD defaultValidity * microsPerMinute⟩⟩ :=
    Option.some.inj
      (hcreate.symm.trans
        (create_short_url_eq base L defaultValidity db now draws req sc hsc))
  subst hr
  refine ⟨rfl, ?_⟩
  simp only [redirect_to_long_url]
  rw [dictGet_dictInsert_self]
  simp [not_lt.mpr hnow']

theorem C1_create_then_redirect_witness :
    ({ status := 201
       response := { shortlink := "http://sh/aa", expirySeconds := 60 }
       store := [("aa", ⟨"https://example.com/page", 60000000⟩)] } :
        CreateResult).response.shortlink = "http://sh" ++ "/" ++ "aa" ∧
    redirect_to_long_url [("aa", ⟨"https://example.com/page", 60000000⟩)]
        60000000 "aa" =
      (.redirect "https://example.com/page",
        [("aa", ⟨"https://example.com/page", 60000000⟩)]) :=
  C1_create_then_redirect "http://sh" 2 30 [] 0 [fun _ => (0 : Fin 62)]
    ⟨"https://example.com/page", some 1, none⟩ "aa"
    { status := 201
      response := { shortlink := "http://sh/aa", expirySeconds := 60 }
      store := [("aa", ⟨"https://example.com/page", 60000000⟩)] }
    60000000 (by decide) rfl rfl (by decide)

/-- C6: for every valid create request, the expiry in the response is the
creation time plus the requested validity in minutes (or the configured
default when validity is omitted) truncated to the whole second rendered by
`strftime('%Y-%m-%dT%H:%M:%SZ')`, and the untruncated expiry timestamp is
what is stored with the entry, together with the destination URL. -/
theorem C6_expiry_rendered_and_stored (base : String) (L defaultValidity : Nat)
    (db : Store) (now : Nat) (draws : List (Nat → Fin 62))
    (req : CreateRequest) (sc : String) (r : CreateResult)
    (hvalid : validRequest req = true)
    (hsc : chooseShortcode L db draws req.shortcode = some sc)
    (hcreate : create_short_url base L defaultValidity db now draws req = some r) :
    r.response.expirySeconds =
      (now + req.validity.getD defaultValidity * microsPerMinute) /
        microsPerSecond ∧
    dictGet r.store sc =
      some ⟨req.url,
        now + req.validity.getD defaultValidity * microsPerMinute⟩ := by
  have hr : r =
      ⟨201,
        ⟨base ++ "/" ++ sc,
          (now + req.validity.getD defaultValidity * microsPerMinute) /
            microsPerSecond⟩,
        dictInsert db sc
          ⟨req.url, now + req.validity.getD defaultValidity * microsPerMinute⟩⟩ :=
    Option.some.inj
      (hcreate.symm.trans
        (create_short_url_eq base L defaultValidity db now draws req sc hsc))
  subst hr
  exact ⟨rfl, dictGet_dictInsert_self db sc _⟩

theorem C6_expiry_rendered_and_stored_witness :
    ({ status := 201
       response := { shortlink := "http://sh/aa", expirySeconds := 60 }
       store := [("aa", ⟨"https://example.com/page", 60000000⟩)] } :
        CreateResult).response.expirySeconds =
      (0 + (some (1 : Nat)).getD 30 * microsPerMinute) / microsPerSecond ∧
    dictGet [("aa", ⟨"https://example.com/page", 60000000⟩)] "aa" =
      some ⟨"https://example.com/page",
        0 + (some (1 : Nat)).getD 30 * microsPerMinute⟩ :=
  C6_expiry_rendered_and_stored "http://sh" 2 30 [] 0 [fun _ => (0 : Fin 62)]
    ⟨"https://example.com/page", some 1, none⟩ "aa"
    { status := 201
      response := { shortlink := "http://sh/aa", expirySeconds := 60 }
      store := [("aa", ⟨"https://example.com/page", 60000000⟩)] }
    (by decide) rfl rfl

/-- C3: a create request whose custom shortcode is already present in the
store succeeds with status 201 and a freshly generated shortcode different
from the requested one; no error is surfaced to the caller. -/
theorem C3_taken_custom_code_regenerates (base : String)
    (L defaultValidity : Nat) (db : Store) (now : Nat)
    (draws : List (Nat → Fin 62)) (req : CreateRequest) (sc c : String)
    (hsc : req.shortcode = some sc)
    (htaken : (dictGet db sc).isSome = true)
    (hgen : generate_unique_shortcode L db draws = some c) :
    create_short_url base L defaultValidity db now draws req =
      some { status := 201
             response := { shortlink := base ++ "/" ++ c
                           expirySeconds :=
                             (now + req.validity.getD defaultValidity *
                               microsPerMinute) / microsPerSecond }
             store := dictInsert db c
               ⟨req.url,
                 now + req.validity.getD defaultValidity * microsPerMinute⟩ } ∧
    c ≠ sc := by
  have hchoose : chooseShortcode L db draws req.shortcode = some c := by
    rw [hsc]
    by_cases h0 : sc = ""
    · simpa [chooseShortcode, h0] using hgen
    · simp [chooseShortcode, h0, htaken, hgen]
  refine ⟨create_short_url_eq base L defaultValidity db now draws req c hchoose,
    ?_⟩
  intro hcs
  have hfresh := (generate_unique_shortcode_spec L db draws c hgen).2.2
  rw [hcs] at hfresh
  rw [hfresh] at htaken
  simp at htaken

theorem C3_taken_custom_code_regenerates_witness :
    create_short_url "http://sh" 2 30
        [("abcd", ⟨"https://example.com/page", 100⟩)] 0
        [fun _ => (0 : Fin 62)]
        ⟨"https://example.com", some 1, some "abcd"⟩ =
      some { status := 201
             response := { shortlink := "http://sh" ++ "/" ++ "aa"
                           expirySeconds :=
                             (0 + (some (1 : Nat)).getD 30 * microsPerMinute) /
                               microsPerSecond }
             store := dictInsert
               [("abcd", ⟨"https://example.com/page", 100⟩)] "aa"
               ⟨"https://example.com",
                 0 + (some (1 : Nat)).getD 30 * microsPerMinute⟩ } ∧
    "aa" ≠ "abcd" :=
  C3_taken_custom_code_regenerates "http://sh" 2 30
    [("abcd", ⟨"https://example.com/page", 100⟩)] 0 [fun _ => (0 : Fin 62)]
    ⟨"https://example.com", some 1, some "abcd"⟩ "abcd" "aa" rfl rfl rfl

/-- C9: entries are immutable once created.  The create handler only inserts
under a key absent from the store, so every previously stored entry (its
destination URL and expiry included) is still bound to its key afterwards;
the redirect handler changes no key other than the accessed one, and changes
the store at all only by evicting the accessed entry when it is expired
(answering 410). -/
theorem C9_entries_immutable :
    (∀ (base : String) (L defaultValidity : Nat) (db : Store) (now : Nat)
        (draws : List (Nat → Fin 62)) (req : CreateRequest) (r : CreateResult),
      create_short_url base L defaultValidity db now draws req = some r →
      ∀ k e, dictGet db k = some e → dictGet r.store k = some e) ∧
    (∀ (db : Store) (now : Nat) (sc : String), KeysNodup db →
      (∀ k, k ≠ sc →
        dictGet (redirect_to_long_url db now sc).2 k = dictGet db k) ∧
      ((redirect_to_long_url db now sc).2 = db ∨
        ∃ e, dictGet db sc = some e ∧ e.expiry_utc < now ∧
          (redirect_to_long_url db now sc).1 =
            .httpError 410 "This Short URL has expired." ∧
          dictGet (redirect_to_long_url db now sc).2 sc = none)) := by
  constructor
  · intro base L defaultValidity db now draws req r hcreate k e hk
    match hch : chooseShortcode L db draws req.shortcode with
    | none => simp [create_short_url, hch] at hcreate
    | some sc =>
        have hr : r =
            ⟨201,
              ⟨base ++ "/" ++ sc,
                (now + req.validity.getD defaultValidity * microsPerMinute) /
                  microsPerSecond⟩,
              dictInsert db sc
                ⟨req.url,
                  now + req.validity.getD defaultValidity * microsPerMinute⟩⟩ :=
          Option.some.inj
            (hcreate.symm.trans
              (create_short_url_eq base L defaultValidity db now draws req sc
                hch))
        subst hr
        have hfresh := chooseShortcode_fresh L db draws req.shortcode sc hch
        have hne : k ≠ sc := fun hks => by
          rw [hks, hfresh] at hk
          exact Option.noConfusion hk
        simpa [dictGet_dictInsert_ne db sc k _ hne] using hk
  · intro db now sc hnd
    match hq : dictGet db sc with
    | none => simp [redirect_to_long_url, hq]
    | some e =>
        by_cases hexp : e.expiry_utc < now
        · refine ⟨?_, Or.inr ⟨e, rfl, hexp, ?_, ?_⟩⟩
          · intro k hk
            simp [redirect_to_long_url, hq, hexp,
              dictGet_dictDelete_ne db sc k hk]
          · simp [redirect_to_long_url, hq, hexp]
          · simp [redirect_to_long_url, hq, hexp,
              dictGet_dictDelete_self db sc hnd]
        · simp [redirect_to_long_url, hq, hexp]

theorem C9_entries_immutable_witness :
    dictGet
        [("abcd", ⟨"https://example.com/page", 100⟩),
          ("aa", ⟨"https://example.com", 60000000⟩)] "abcd" =
      some ⟨"https://example.com/page", 100⟩ ∧
    dictGet
        (redirect_to_long_url [("abcd", ⟨"https://example.com/page", 100⟩)]
          101 "abcd").2 "zzzz" =
      dictGet [("abcd", ⟨"https://example.com/page", 100⟩)] "zzzz" := by
  constructor
  · exact C9_entries_immutable.1 "http://sh" 2 30
      [("abcd", ⟨"https://example.com/page", 100⟩)] 0 [fun _ => (0 : Fin 62)]
      ⟨"https://example.com", some 1, none⟩
      ⟨201, ⟨"http://sh/aa", 60⟩,
        [("abcd", ⟨"https://example.com/page", 100⟩),
          ("aa", ⟨"https://example.com", 60000000⟩)]⟩
      rfl "abcd" ⟨"https://example.com/page", 100⟩ rfl
  · exact (C9_entries_immutable.2
      [("abcd", ⟨"https://example.com/page", 100⟩)] 101 "abcd"
      (by simp [KeysNodup])).1 "zzzz" (by decide)

/-- C7 counterexample: the claim "the `Log` call never raises an exception
to its caller, for every input" is false.  With no cached token, an auth
response of status 200 whose body is valid JSON but not an object makes
`token_data.get("access_token")` (src/logger.py line 47) raise an
`AttributeError`, which is not a `RequestException`, is caught nowhere, and
propagates out of `Log` to its caller. -/
theorem C7_log_can_raise_counterexample :
    Log none (.response 200 .jsonNonDict) (.response 200 "") =
      .raised .attributeError none := rfl

/-- C7 (amended): on every `Log` call, an authentication failure raised as a
`RequestException`, a non-200 submission response, and a submission
transport error are each caught and turned into a local console report
(`failedNoToken`, `submitWarning`, `submitError`), with `Log` returning
normally; the only exception that can propagate out of `Log` to its caller
is the uncaught `AttributeError` arising when no token is cached and the
auth endpoint answers with a non-error status (outside 400–599) and a valid
JSON body that is not an object. -/
theorem C7_log_swallows_request_failures (st : Option String) (aw : AuthWire)
    (lw : LogWire) :
    ((get_auth_token st aw).result = .value none →
      Log st aw lw = .returned .failedNoToken (get_auth_token st aw).newState) ∧
    (∀ tok s t, (get_auth_token st aw).result = .value (some tok) →
      lw = .response s t → s ≠ 200 →
      Log st aw lw =
        .returned (.submitWarning s t) (get_auth_token st aw).newState) ∧
    (∀ tok u, (get_auth_token st aw).result = .value (some tok) →
      log_attempt lw = .error u →
      Log st aw lw = .returned .submitError (get_auth_token st aw).newState) ∧
    (∀ e st', Log st aw lw = .raised e st' →
      st = none ∧ e = .attributeError ∧ st' = none ∧
        ∃ s, aw = .response s .jsonNonDict ∧ ¬(400 ≤ s ∧ s < 600)) := by
  refine ⟨?_, ?_, ?_, ?_⟩
  · intro h
    simp [Log, h]
  · intro tok s t h hlw hs
    subst hlw
    simp [Log, h, log_attempt, hs]
  · intro tok u h hu
    simp [Log, h, hu]
  · intro e st' h
    match st, aw with
    | some tok, _ =>
        cases hl : log_attempt lw <;> simp [Log, get_auth_token, hl] at h
    | none, .transportError => simp [Log, get_auth_token, auth_attempt] at h
    | none, .response s body =>
        by_cases hs : 400 ≤ s ∧ s < 600
        · simp [Log, get_auth_token, auth_attempt, hs] at h
        · match body with
          | .notJson => simp [Log, get_auth_token, auth_attempt, hs] at h
          | .jsonNonDict =>
              have hh : PyError.attributeError = e ∧ none = st' := by
                simpa [Log, get_auth_token, auth_attempt, hs] using h
              exact ⟨rfl, hh.1.symm, hh.2.symm, s, rfl, hs⟩
          | .jsonDict none =>
              simp [Log, get_auth_token, auth_attempt, hs] at h
          | .jsonDict (some tok) =>
              by_cases h0 : tok = "" <;>
                simp [Log, get_auth_token, auth_attempt, hs, h0, log_attempt] at h <;>
                  cases lw <;> simp_all [log_attempt]

theorem C7_log_swallows_request_failures_witness :
    (Log none .transportError .transportError =
      .returned .failedNoToken (get_auth_token none .transportError).newState) ∧
    (Log (some "tok") .transportError (.response 500 "err") =
      .returned (.submitWarning 500 "err")
        (get_auth_token (some "tok") .transportError).newState) ∧
    (Log (some "tok") .transportError .transportError =
      .returned .submitError
        (get_auth_token (some "tok") .transportError).newState) ∧
    ((none : Option String) = none ∧
      PyError.attributeError = PyError.attributeError ∧
      (none : Option String) = none ∧
      ∃ s, (AuthWire.response 200 .jsonNonDict : AuthWire) =
          .response s .jsonNonDict ∧ ¬(400 ≤ s ∧ s < 600)) :=
  ⟨(C7_log_swallows_request_failures none .transportError .transportError).1
      rfl,
    (C7_log_swallows_request_failures (some "tok") .transportError
      (.response 500 "err")).2.1 "tok" 500 "err" rfl rfl (by decide),
    (C7_log_swallows_request_failures (some "tok") .transportError
      .transportError).2.2.1 "tok" () rfl rfl,
    (C7_log_swallows_request_failures none (.response 200 .jsonNonDict)
      (.response 200 "")).2.2.2 .attributeError none rfl⟩

/-- Every call of a cached-token run returns the cached token without
contacting the auth endpoint and leaves the cache unchanged. -/
theorem runAuth_cached (tok : String) (ws : List AuthWire) :
    ∀ c ∈ runAuth (some tok) ws, c = ⟨.value (some tok), some tok, false⟩ := by
  induction ws with
  | nil => simp [runAuth]
  | cons w ws ih =>
      intro c hc
      rcases (by simpa [runAuth, get_auth_token] using hc :
          c = ⟨.value (some tok), some tok, false⟩ ∨
            c ∈ runAuth (some tok) ws) with h | h
      · exact h
      · exact ih c h

/-- C8: once a token is cached, `get_auth_token` never contacts the auth
endpoint again and always returns the cached token (over any sequence of
further calls); a single call contacts the endpoint exactly when no token is
cached at that call. -/
theorem C8_token_cached_forever (st : Option String) (w : AuthWire)
    (tok : String) (ws : List AuthWire) (c : AuthCall)
    (hc : c ∈ runAuth (some tok) ws) :
    ((get_auth_token st w).contacted = true ↔ st = none) ∧
    (c.contacted = false ∧ c.result = .value (some tok) ∧
      c.newState = some tok) := by
  constructor
  · match st with
    | some tok' => simp [get_auth_token]
    | none =>
        simp only [get_auth_token]
        match auth_attempt w with
        | .error .requestError => simp
        | .error .attributeError => simp
        | .ok (res, cache) => simp
  · have h := runAuth_cached tok ws c hc
    rw [h]
    exact ⟨rfl, rfl, rfl⟩

theorem C8_token_cached_forever_witness :
    (⟨.value (some "tok"), some "tok", false⟩ : AuthCall) ∈
        runAuth (some "tok")
          [.transportError, .response 200 (.jsonDict none)] ∧
    (((get_auth_token none .transportError).contacted = true ↔
        (none : Option String) = none) ∧
      ((⟨.value (some "tok"), some "tok", false⟩ : AuthCall).contacted =
          false ∧
        (⟨.value (some "tok"), some "tok", false⟩ : AuthCall).result =
          .value (some "tok") ∧
        (⟨.value (some "tok"), some "tok", false⟩ : AuthCall).newState =
          some "tok")) :=
  ⟨by simp [runAuth, get_auth_token],
    C8_token_cached_forever none .transportError "tok"
      [.transportError, .response 200 (.jsonDict none)]
      ⟨.value (some "tok"), some "tok", false⟩
      (by simp [runAuth, get_auth_token])⟩

end UrlShortener
